import Mathlib

/-!
A shallow embedding of the HydroChain hydrogen-credit marketplace core
(`src/app.py`, with the bid-acceptance route from
`src/attached_assets/app_1756750820803.py`, over the SQLAlchemy schema of
`src/attached_assets/models_1756750820804.py`).

Conventions of the embedding:
* Python floats (prices, quantities, aggregates) are modelled as `ℚ`.
* Timestamps are modelled as `Int`, measured in hours (so
  `timedelta(days=7)` is `7 * 24` and `timedelta(hours=h)` is `h`).
* The database session is a `Store` record of lists; `query.get(pk)` is
  `find?` on the primary-key column and an ORM row mutation is a map that
  rewrites the rows with that primary key.
* A request handler is a pure function `Store → ... → Result × Store`.
  Because every handler either commits at its end or rolls back on an
  exception, a failing branch returns the store unchanged; the failure
  constructors mirror the distinct `jsonify` error branches of the code.
* Python's falsy test `if not x` on a JSON integer/number field is
  modelled as a comparison with `0`.
-/

/-- Row of the `User` table (`models_1756750820804.py`).  Only the columns
the trading core reads or writes are kept. -/
structure User where
  id : Nat
  username : String
  wallet_address : String
  is_verified : Bool
  total_offsets : ℚ
  trading_volume : ℚ
deriving DecidableEq

/-- Row of the `HydrogenCredit` table (`models_1756750820804.py`). -/
structure HydrogenCredit where
  id : Nat
  token_id : Nat
  project_name : String
  quantity : ℚ
  price : ℚ
  min_bid_price : Option ℚ
  vintage_year : Int
  certification : String
  certification_level : String
  project_type : String
  quality_rating : ℚ
  is_for_sale : Bool
  is_retired : Bool
  is_partnership : Bool
  issue_date : Int
  retirement_date : Option Int
  expiry_date : Option Int
  owner_id : Nat
deriving DecidableEq

/-- Row of the `Transaction` table (`models_1756750820804.py`). -/
structure Transaction where
  id : Nat
  credit_id : Nat
  buyer_id : Nat
  seller_id : Nat
  price : ℚ
  quantity : ℚ
  transaction_type : String
  timestamp : Int
  status : String
deriving DecidableEq

/-- Row of the `TradingBid` table (`models_1756750820804.py`). -/
structure TradingBid where
  id : Nat
  credit_id : Nat
  user_id : Nat
  bid_price : ℚ
  quantity_desired : ℚ
  bid_type : String
  status : String
  expiry_date : Int
  created_at : Int
  accepted_at : Option Int
  notes : String
deriving DecidableEq

/-- The `is_expired` property of `TradingBid` (`models_1756750820804.py`):
`datetime.now() > self.expiry_date`, evaluated lazily at read time. -/
def TradingBid.is_expired (b : TradingBid) (now : Int) : Bool :=
  b.expiry_date < now

/-- Row of the `Notification` table (`models_1756750820804.py`). -/
structure Notification where
  user_id : Nat
  title : String
  message : String
  notification_type : String
  priority : String
  is_read : Bool
deriving DecidableEq

/-- The persistent store: one list per table touched by the trading core. -/
structure Store where
  users : List User
  credits : List HydrogenCredit
  transactions : List Transaction
  bids : List TradingBid
  notifications : List Notification
deriving DecidableEq

/-- `Model.query.get(i)`: first row whose primary key is `i`. -/
def findById {α : Type} (getId : α → Nat) (l : List α) (i : Nat) : Option α :=
  l.find? (fun x => getId x == i)

/-- Mutating the ORM row with primary key `i` rewrites every stored row
carrying that key (with unique keys, exactly the fetched row). -/
def updateById {α : Type} (getId : α → Nat) (l : List α) (i : Nat) (f : α → α) : List α :=
  l.map (fun x => if getId x == i then f x else x)

/-- Fresh autoincrement primary key: one more than the largest key in use. -/
def nextId (l : List Nat) : Nat :=
  l.foldr max 0 + 1

def Store.findUser (s : Store) (i : Nat) : Option User :=
  findById User.id s.users i

def Store.findCredit (s : Store) (i : Nat) : Option HydrogenCredit :=
  findById HydrogenCredit.id s.credits i

def Store.findBid (s : Store) (i : Nat) : Option TradingBid :=
  findById TradingBid.id s.bids i

/-- Outcomes of the purchase path, one constructor per distinct response
branch of `buy_credit` / `process_buy_transaction` in `src/app.py`. -/
inductive BuyResult where
  /-- "Purchase completed successfully!", with the new transaction id. -/
  | success (txId : Nat)
  /-- "Credit ID is required" (route, falsy credit id). -/
  | creditIdRequired
  /-- "Credit not found" (route, 404). -/
  | creditNotFound
  /-- "Cannot buy your own credit" (route). -/
  | ownCredit
  /-- "Credit not available for sale" (route: not for sale or retired). -/
  | notForSaleOrRetired
  /-- "Credit not available for purchase" (worker re-check). -/
  | notAvailable
  /-- "Transaction failed: ..." (exception branch; session rolled back). -/
  | txFailed
deriving DecidableEq

def BuyResult.isSuccess : BuyResult → Bool
  | .success _ => true
  | _ => false

/-- The notification built for the buyer in `process_buy_transaction`
(`src/app.py` lines 83-90). -/
def purchaseBuyerNotification (buyer_id : Nat) (quantity : ℚ) (projectName : String) : Notification :=
  { user_id := buyer_id
    title := "Purchase Successful"
    message := "You have successfully purchased " ++ toString quantity ++
      " kg of hydrogen credits from " ++ projectName
    notification_type := "trade"
    priority := "normal"
    is_read := false }

/-- The notification built for the seller in `process_buy_transaction`
(`src/app.py` lines 92-99); addressed to `seller.id`, the user row fetched
by the pre-transfer `credit.owner_id`. -/
def purchaseSellerNotification (seller_id : Nat) (projectName buyerName : String) : Notification :=
  { user_id := seller_id
    title := "Credit Sold"
    message := "Your hydrogen credit from " ++ projectName ++
      " has been sold to " ++ buyerName
    notification_type := "trade"
    priority := "normal"
    is_read := false }

/-- `process_buy_transaction` (`src/app.py` lines 48-108).  The worker
fetches the credit, the buyer, and the current owner; re-checks
availability; then, in one unit of work, appends the `purchase`
transaction, moves ownership, clears the sale flag, bumps the buyer's
`total_offsets` and both parties' `trading_volume`, and appends one
notification for each party.  A missing credit row or a missing user row
raises inside the `try` block, so the session rolls back: the store is
returned unchanged with the `txFailed` outcome. -/
def process_buy_transaction (s : Store) (now : Int) (credit_id buyer_id : Nat)
    (price quantity : ℚ) : BuyResult × Store :=
  match s.findCredit credit_id with
  | none => (.txFailed, s)
  | some credit =>
    if credit.is_for_sale = false ∨ credit.owner_id = buyer_id then
      (.notAvailable, s)
    else
      match s.findUser buyer_id, s.findUser credit.owner_id with
      | some buyer, some seller =>
        let txId := nextId (s.transactions.map Transaction.id)
        let tx : Transaction :=
          { id := txId
            credit_id := credit_id
            buyer_id := buyer_id
            seller_id := credit.owner_id
            price := price
            quantity := quantity
            transaction_type := "purchase"
            timestamp := now
            status := "completed" }
        let credits' := updateById HydrogenCredit.id s.credits credit_id
          (fun c => { c with owner_id := buyer_id, is_for_sale := false })
        let users' := updateById User.id
          (updateById User.id s.users buyer_id
            (fun u => { u with total_offsets := u.total_offsets + quantity,
                               trading_volume := u.trading_volume + price }))
          credit.owner_id
          (fun u => { u with trading_volume := u.trading_volume + price })
        (.success txId,
          { s with
              credits := credits'
              users := users'
              transactions := s.transactions ++ [tx]
              notifications := s.notifications ++
                [purchaseBuyerNotification buyer_id quantity credit.project_name,
                 purchaseSellerNotification seller.id credit.project_name buyer.username] })
      | _, _ => (.txFailed, s)

/-- The `/api/buy` route `buy_credit` (`src/app.py` lines 318-346) composed
sequentially with the worker it submits: validates the credit id, looks the
credit up, rejects self-purchase and unavailable credits, then hands the
credit's own `price` and `quantity` to `process_buy_transaction`. -/
def buy_credit (s : Store) (now : Int) (user_id credit_id : Nat) : BuyResult × Store :=
  if credit_id = 0 then (.creditIdRequired, s)
  else
    match s.findCredit credit_id with
    | none => (.creditNotFound, s)
    | some credit =>
      if credit.owner_id = user_id then (.ownCredit, s)
      else if credit.is_for_sale = false ∨ credit.is_retired = true then
        (.notForSaleOrRetired, s)
      else
        process_buy_transaction s now credit_id user_id credit.price credit.quantity

/-- Outcomes of the listing path, one constructor per response branch of
`sell_credit` / `process_sell_listing` in `src/app.py`. -/
inductive SellResult where
  /-- "Credit listed for sale at $..." -/
  | success
  /-- "Credit ID and price are required" (route, falsy field). -/
  | fieldsRequired
  /-- "Price must be greater than 0" (route). -/
  | invalidPrice
  /-- "Credit not available for listing" (worker: missing, not owned, or retired). -/
  | notAvailable
deriving DecidableEq

/-- The notification built in `process_sell_listing` (`src/app.py`
lines 125-132). -/
def listingNotification (seller_id : Nat) (projectName : String) (price : ℚ) : Notification :=
  { user_id := seller_id
    title := "Credit Listed for Sale"
    message := "Your hydrogen credit from " ++ projectName ++
      " is now listed for $" ++ toString price
    notification_type := "trade"
    priority := "normal"
    is_read := false }

/-- `process_sell_listing` (`src/app.py` lines 110-141): requires the
caller to own a non-retired credit, then sets `is_for_sale`, the asking
`price`, and `min_bid_price = price * 0.9`, and notifies the seller. -/
def process_sell_listing (s : Store) (credit_id seller_id : Nat) (price : ℚ) :
    SellResult × Store :=
  match s.findCredit credit_id with
  | none => (.notAvailable, s)
  | some credit =>
    if credit.owner_id ≠ seller_id ∨ credit.is_retired = true then
      (.notAvailable, s)
    else
      (.success,
        { s with
            credits := updateById HydrogenCredit.id s.credits credit_id
              (fun c => { c with is_for_sale := true, price := price,
                                 min_bid_price := some (price * 0.9) })
            notifications := s.notifications ++
              [listingNotification seller_id credit.project_name price] })

/-- The `/api/sell` route `sell_credit` (`src/app.py` lines 348-374)
composed with its worker: rejects falsy fields and non-positive prices,
then submits `process_sell_listing`. -/
def sell_credit (s : Store) (user_id credit_id : Nat) (price : ℚ) : SellResult × Store :=
  if credit_id = 0 ∨ price = 0 then (.fieldsRequired, s)
  else if price ≤ 0 then (.invalidPrice, s)
  else process_sell_listing s credit_id user_id price

/-- Outcomes of `/api/retire` (`retire_credit`, `src/app.py` lines 376-406). -/
inductive RetireResult where
  /-- "Credit retired successfully" -/
  | success
  /-- "Credit ID is required" -/
  | creditIdRequired
  /-- "Credit not found" (404). -/
  | creditNotFound
  /-- "You do not own this credit" (403). -/
  | notOwner
deriving DecidableEq

/-- `retire_credit` (`src/app.py` lines 376-406): only existence and
ownership are checked; the handler then sets `is_retired`, clears
`is_for_sale`, and stamps `retirement_date = datetime.now()` — even when
the credit is already retired. -/
def retire_credit (s : Store) (now : Int) (user_id credit_id : Nat) :
    RetireResult × Store :=
  if credit_id = 0 then (.creditIdRequired, s)
  else
    match s.findCredit credit_id with
    | none => (.creditNotFound, s)
    | some credit =>
      if credit.owner_id ≠ user_id then (.notOwner, s)
      else
        (.success,
          { s with
              credits := updateById HydrogenCredit.id s.credits credit_id
                (fun c => { c with is_retired := true, is_for_sale := false,
                                   retirement_date := some now }) })

/-- Outcomes of `/api/place-bid` (`place_bid`, `src/app.py` lines 452-499). -/
inductive PlaceBidResult where
  /-- "Bid placed successfully" -/
  | success
  /-- "All fields are required" (falsy field). -/
  | fieldsRequired
  /-- "Price and quantity must be greater than 0" -/
  | invalidPositive
  /-- "Credit not found" (404). -/
  | creditNotFound
  /-- "Cannot bid on your own credit" -/
  | ownCredit
deriving DecidableEq

/-- `place_bid` (`src/app.py` lines 452-499).  The route reads
`credit_id`, `bid_price`, `quantity`, and `notes` from the request body; it
checks that the fields are truthy and positive, that the credit exists, and
that the bidder is not the owner.  It never reads the credit's
`min_bid_price` or `is_for_sale`, and it never reads an expiry field from
the request (`expiry_hours` is carried here as the caller-supplied request
datum the route ignores): the stored bid is `active` with
`expiry_date = datetime.now() + timedelta(days=7)`. -/
def place_bid (s : Store) (now : Int) (user_id credit_id : Nat)
    (bid_price quantity : ℚ) (expiry_hours : Int) (notes : String) :
    PlaceBidResult × Store :=
  if credit_id = 0 ∨ bid_price = 0 ∨ quantity = 0 then (.fieldsRequired, s)
  else if bid_price ≤ 0 ∨ quantity ≤ 0 then (.invalidPositive, s)
  else
    match s.findCredit credit_id with
    | none => (.creditNotFound, s)
    | some credit =>
      if credit.owner_id = user_id then (.ownCredit, s)
      else
        (.success,
          { s with
              bids := s.bids ++
                [{ id := nextId (s.bids.map TradingBid.id)
                   credit_id := credit_id
                   user_id := user_id
                   bid_price := bid_price
                   quantity_desired := quantity
                   bid_type := "buy"
                   status := "active"
                   expiry_date := now + 7 * 24
                   created_at := now
                   accepted_at := none
                   notes := notes }] })

/-- Outcomes of `/api/accept-bid` (`accept_bid`,
`src/attached_assets/app_1756750820803.py` lines 388-450). -/
inductive AcceptBidResult where
  /-- "Bid accepted successfully" -/
  | success
  /-- "Bid ID required" -/
  | bidIdRequired
  /-- "Bid not found" (404). -/
  | bidNotFound
  /-- Uncaught `AttributeError`: the bid references a missing credit row, and
  `credit.owner_id` is read outside the `try` block. -/
  | serverError
  /-- "You don't own this credit" (403). -/
  | notOwner
  /-- Exception inside the `try` block (e.g. missing buyer row); rolled back. -/
  | txFailed
deriving DecidableEq

/-- The buyer-side notification of `accept_bid`
(`app_1756750820803.py` lines 430-435). -/
def bidAcceptedNotification (bidder_id : Nat) (projectName : String) : Notification :=
  { user_id := bidder_id
    title := "Bid Accepted"
    message := "Your bid for " ++ projectName ++ " has been accepted!"
    notification_type := "trade"
    priority := "normal"
    is_read := false }

/-- The seller-side notification of `accept_bid`
(`app_1756750820803.py` lines 437-442). -/
def creditSoldNotification (owner_id : Nat) (projectName : String) (price : ℚ) : Notification :=
  { user_id := owner_id
    title := "Credit Sold"
    message := "You sold " ++ projectName ++ " for $" ++ toString price
    notification_type := "trade"
    priority := "normal"
    is_read := false }

/-- `accept_bid` (`src/attached_assets/app_1756750820803.py` lines
388-450).  Checks only that the bid exists and that the caller owns the
referenced credit — the bid's `status` and `expiry_date` are never
consulted.  On the happy path it appends one `bid`-type `completed`
transaction at the bid's price and quantity, moves ownership to the bidder,
clears the sale flag, stamps the bid `accepted` with `accepted_at = now`,
adds the bid's quantity to the bidder's `total_offsets` (no
`trading_volume` update at all), and appends one notification per party.
A missing buyer row raises inside the `try` block, rolling the unit of
work back. -/
def accept_bid (s : Store) (now : Int) (user_id bid_id : Nat) : AcceptBidResult × Store :=
  if bid_id = 0 then (.bidIdRequired, s)
  else
    match s.findBid bid_id with
    | none => (.bidNotFound, s)
    | some bid =>
      match s.findCredit bid.credit_id with
      | none => (.serverError, s)
      | some credit =>
        if credit.owner_id ≠ user_id then (.notOwner, s)
        else
          match s.findUser bid.user_id with
          | none => (.txFailed, s)
          | some _buyer =>
            let tx : Transaction :=
              { id := nextId (s.transactions.map Transaction.id)
                credit_id := bid.credit_id
                buyer_id := bid.user_id
                seller_id := user_id
                price := bid.bid_price
                quantity := bid.quantity_desired
                transaction_type := "bid"
                timestamp := now
                status := "completed" }
            (.success,
              { s with
                  credits := updateById HydrogenCredit.id s.credits bid.credit_id
                    (fun c => { c with owner_id := bid.user_id, is_for_sale := false })
                  bids := updateById TradingBid.id s.bids bid_id
                    (fun b => { b with status := "accepted", accepted_at := some now })
                  users := updateById User.id s.users bid.user_id
                    (fun u => { u with total_offsets := u.total_offsets + bid.quantity_desired })
                  transactions := s.transactions ++ [tx]
                  notifications := s.notifications ++
                    [bidAcceptedNotification bid.user_id credit.project_name,
                     creditSoldNotification user_id credit.project_name bid.bid_price] })

/-- One Engine operation, as invoked by the request layer. -/
inductive EngineOp where
  | buy (now : Int) (user_id credit_id : Nat)
  | sell (user_id credit_id : Nat) (price : ℚ)
  | retire (now : Int) (user_id credit_id : Nat)
  | placeBid (now : Int) (user_id credit_id : Nat) (bid_price quantity : ℚ)
      (expiry_hours : Int) (notes : String)
  | acceptBid (now : Int) (user_id bid_id : Nat)

/-- The store an Engine operation leaves behind. -/
def applyOp (s : Store) : EngineOp → Store
  | .buy now u c => (buy_credit s now u c).2
  | .sell u c p => (sell_credit s u c p).2
  | .retire now u c => (retire_credit s now u c).2
  | .placeBid now u c p q eh n => (place_bid s now u c p q eh n).2
  | .acceptBid now u b => (accept_bid s now u b).2

/-- Credit invariant of the spec: a retired credit is never for sale. -/
def creditsInvariant (l : List HydrogenCredit) : Prop :=
  ∀ c ∈ l, c.is_retired = true → c.is_for_sale = false

/-- Store-level form of the invariant. -/
def Store.retiredNotForSale (s : Store) : Prop :=
  creditsInvariant s.credits

/-! Concrete stores used to exercise the operations. -/

/-- Demo user 1 (credit owner in the demo stores). -/
def aliceU : User :=
  { id := 1, username := "alice", wallet_address := "0xaaa", is_verified := true,
    total_offsets := 0, trading_volume := 0 }

/-- Demo user 2 (buyer / bidder in the demo stores). -/
def bobU : User :=
  { id := 2, username := "bob", wallet_address := "0xbbb", is_verified := true,
    total_offsets := 0, trading_volume := 0 }

/-- Demo credit: listed for sale by user 1 at price 5 with the derived
minimum bid 4.5. -/
def demoCredit : HydrogenCredit :=
  { id := 1, token_id := 11, project_name := "Solar H2", quantity := 100,
    price := 5, min_bid_price := some 4.5, vintage_year := 2024,
    certification := "GHS", certification_level := "standard",
    project_type := "Electrolysis", quality_rating := 3,
    is_for_sale := true, is_retired := false, is_partnership := false,
    issue_date := 0, retirement_date := none, expiry_date := some 10000,
    owner_id := 1 }

/-- Demo store: two users, one for-sale credit, empty history. -/
def demoStore : Store :=
  { users := [aliceU, bobU], credits := [demoCredit],
    transactions := [], bids := [], notifications := [] }

/-- Demo store whose only credit is not for sale. -/
def notForSaleStore : Store :=
  { users := [aliceU, bobU],
    credits := [{ demoCredit with is_for_sale := false }],
    transactions := [], bids := [], notifications := [] }

/-- The demo credit after a retirement at time 5. -/
def retiredCredit : HydrogenCredit :=
  { demoCredit with
      is_for_sale := false, is_retired := true, retirement_date := some 5 }

/-- Demo store whose only credit is retired (retired at time 5, owned by
user 1, not for sale). -/
def retiredStore : Store :=
  { users := [aliceU, bobU], credits := [retiredCredit],
    transactions := [], bids := [], notifications := [] }

/-- Demo bid of user 2 on credit 1: active, price 4.75 for the whole
quantity, placed at time 0, expiring at time 100. -/
def demoBid : TradingBid :=
  { id := 1, credit_id := 1, user_id := 2, bid_price := 4.75,
    quantity_desired := 100, bid_type := "buy", status := "active",
    expiry_date := 100, created_at := 0, accepted_at := none, notes := "" }

/-- Demo store with the active demo bid pending. -/
def activeBidStore : Store :=
  { users := [aliceU, bobU], credits := [demoCredit],
    transactions := [], bids := [demoBid], notifications := [] }

/-- Store as left by a first acceptance of the demo bid at time 5: the
bid is already `accepted` (and, by time 101, also past its expiry), user 2
owns the credit, and the transaction of the first acceptance is on file. -/
def acceptedBidStore : Store :=
  { users := [aliceU, { bobU with total_offsets := 100 }],
    credits := [{ demoCredit with owner_id := 2, is_for_sale := false }],
    transactions := [{ id := 1, credit_id := 1, buyer_id := 2, seller_id := 1,
                       price := 4.75, quantity := 100, transaction_type := "bid",
                       timestamp := 5, status := "completed" }],
    bids := [{ demoBid with status := "accepted", accepted_at := some 5 }],
    notifications := [] }

/-! Helper lemmas about `findById` and `updateById`. -/

theorem findById_id {α : Type} (getId : α → Nat) (l : List α) (i : Nat) (a : α)
    (h : findById getId l i = some a) : getId a = i := by
  have h2 := List.find?_some h
  simpa using h2

theorem updateById_id_invariant {α : Type} (getId : α → Nat) (i : Nat)
    (f : α → α) (hf : ∀ x, getId (f x) = getId x) (x : α) :
    getId (if getId x == i then f x else x) = getId x := by
  by_cases h : getId x = i <;> simp [h, hf]

theorem findById_updateById_self {α : Type} (getId : α → Nat) (l : List α)
    (i : Nat) (f : α → α) (hf : ∀ x, getId (f x) = getId x) :
    findById getId (updateById getId l i f) i = (findById getId l i).map f := by
  unfold findById updateById
  rw [List.find?_map]
  have hpred : ((fun x => getId x == i) ∘ fun x => if getId x == i then f x else x) =
      (fun x => getId x == i) := by
    funext x
    simp only [Function.comp]
    rw [updateById_id_invariant getId i f hf x]
  rw [hpred]
  cases hfind : l.find? (fun x => getId x == i) with
  | none => rfl
  | some a =>
    have ha : getId a = i := by simpa using List.find?_some hfind
    simp [ha]

theorem findById_updateById_ne {α : Type} (getId : α → Nat) (l : List α)
    (i j : Nat) (f : α → α) (hf : ∀ x, getId (f x) = getId x) (hij : j ≠ i) :
    findById getId (updateById getId l i f) j = findById getId l j := by
  unfold findById updateById
  rw [List.find?_map]
  have hpred : ((fun x => getId x == j) ∘ fun x => if getId x == i then f x else x) =
      (fun x => getId x == j) := by
    funext x
    simp only [Function.comp]
    rw [updateById_id_invariant getId i f hf x]
  rw [hpred]
  cases hfind : l.find? (fun x => getId x == j) with
  | none => rfl
  | some a =>
    have ha : getId a = j := by simpa using List.find?_some hfind
    have hne : (getId a == i) = false := by
      simp only [beq_eq_false_iff_ne, ne_eq]
      omega
    exact congrArg some (if_neg (by simp [hne]))

theorem eq_of_mem_of_findById {α : Type} (getId : α → Nat) (l : List α)
    (i : Nat) (a x : α) (h : findById getId l i = some a)
    (hnd : (l.map getId).Nodup) (hx : x ∈ l) (hxi : getId x = i) : x = a := by
  induction l with
  | nil => simp at hx
  | cons b t ih =>
    by_cases hb : getId b = i
    · have h1 : (getId b == i) = true := by simp [hb]
      have hab : a = b := by
        simp [findById, List.find?_cons_of_pos, h1] at h
        exact h.symm
      rcases List.mem_cons.mp hx with hxb | hxt
      · rw [hxb, hab]
      · exfalso
        have : getId x ∈ t.map getId := List.mem_map_of_mem getId hxt
        rw [hxi, ← hb] at this
        exact (List.nodup_cons.mp hnd).1 this
    · have h1 : (getId b == i) = false := by simp [hb]
      have h' : findById getId t i = some a := by
        simpa [findById, List.find?_cons_of_neg, h1] using h
      rcases List.mem_cons.mp hx with hxb | hxt
      · exact absurd (hxb ▸ hxi) hb
      · exact ih h' (List.nodup_cons.mp hnd).2 hxt

/-! Preservation of the retired-is-not-for-sale invariant. -/

theorem creditsInvariant_updateById_clear (l : List HydrogenCredit) (i : Nat)
    (f : HydrogenCredit → HydrogenCredit) (hf : ∀ c, (f c).is_for_sale = false)
    (h : creditsInvariant l) :
    creditsInvariant (updateById HydrogenCredit.id l i f) := by
  intro c hc hr
  rcases List.mem_map.mp hc with ⟨a, ha, hfa⟩
  by_cases hid : (HydrogenCredit.id a == i) = true
  · rw [if_pos hid] at hfa
    rw [← hfa]
    exact hf a
  · rw [if_neg hid] at hfa
    rw [← hfa] at hr ⊢
    exact h a ha hr

theorem creditsInvariant_updateById_keep (l : List HydrogenCredit) (i : Nat)
    (c₀ : HydrogenCredit) (hnd : (l.map HydrogenCredit.id).Nodup)
    (hfind : findById HydrogenCredit.id l i = some c₀)
    (hc₀ : c₀.is_retired = false) (f : HydrogenCredit → HydrogenCredit)
    (hf : ∀ c, (f c).is_retired = c.is_retired) (h : creditsInvariant l) :
    creditsInvariant (updateById HydrogenCredit.id l i f) := by
  intro c hc hr
  rcases List.mem_map.mp hc with ⟨a, ha, hfa⟩
  by_cases hid : (HydrogenCredit.id a == i) = true
  · exfalso
    have haid : HydrogenCredit.id a = i := by simpa using hid
    have hac : a = c₀ := eq_of_mem_of_findById HydrogenCredit.id l i c₀ a hfind hnd ha haid
    rw [if_pos hid] at hfa
    rw [← hfa] at hr
    rw [hf a, hac, hc₀] at hr
    exact Bool.false_ne_true hr
  · rw [if_neg hid] at hfa
    rw [← hfa] at hr ⊢
    exact h a ha hr

theorem buy_credit_preserves_inv (s : Store) (now : Int) (u cid : Nat)
    (h : s.retiredNotForSale) : (buy_credit s now u cid).2.retiredNotForSale := by
  unfold buy_credit process_buy_transaction
  repeat' split
  all_goals first
    | exact h
    | exact creditsInvariant_updateById_clear s.credits cid _ (fun _ => rfl) h

theorem sell_credit_preserves_inv (s : Store) (u cid : Nat) (p : ℚ)
    (hnd : (s.credits.map HydrogenCredit.id).Nodup)
    (h : s.retiredNotForSale) : (sell_credit s u cid p).2.retiredNotForSale := by
  unfold sell_credit process_sell_listing
  split
  · exact h
  split
  · exact h
  split
  · exact h
  next credit heq =>
    split
    · exact h
    next hcond =>
      push_neg at hcond
      exact creditsInvariant_updateById_keep s.credits cid credit hnd heq
        (by simpa using hcond.2) _ (fun _ => rfl) h

theorem retire_credit_preserves_inv (s : Store) (now : Int) (u cid : Nat)
    (h : s.retiredNotForSale) : (retire_credit s now u cid).2.retiredNotForSale := by
  unfold retire_credit
  repeat' split
  all_goals first
    | exact h
    | exact creditsInvariant_updateById_clear s.credits cid _ (fun _ => rfl) h

theorem place_bid_preserves_inv (s : Store) (now : Int) (u cid : Nat)
    (p q : ℚ) (eh : Int) (n : String) (h : s.retiredNotForSale) :
    (place_bid s now u cid p q eh n).2.retiredNotForSale := by
  unfold place_bid
  repeat' split
  all_goals exact h

theorem accept_bid_preserves_inv (s : Store) (now : Int) (u bid : Nat)
    (h : s.retiredNotForSale) : (accept_bid s now u bid).2.retiredNotForSale := by
  unfold accept_bid
  repeat' split
  all_goals first
    | exact h
    | exact creditsInvariant_updateById_clear s.credits _ _ (fun _ => rfl) h

/-- C6: for every credit and after every Engine operation (purchase,
listForSale, retire, placeBid, acceptBid), the invariant
`retired = true → for_sale = false` holds: starting from a store that
satisfies it (with the usual primary-key uniqueness of the credits table),
every operation leaves a store that satisfies it. -/
theorem engine_preserves_retired_not_for_sale (s : Store) (op : EngineOp)
    (hnd : (s.credits.map HydrogenCredit.id).Nodup)
    (hinv : s.retiredNotForSale) : (applyOp s op).retiredNotForSale := by
  cases op with
  | buy now u c => exact buy_credit_preserves_inv s now u c hinv
  | sell u c p => exact sell_credit_preserves_inv s u c p hnd hinv
  | retire now u c => exact retire_credit_preserves_inv s now u c hinv
  | placeBid now u c p q eh n => exact place_bid_preserves_inv s now u c p q eh n hinv
  | acceptBid now u b => exact accept_bid_preserves_inv s now u b hinv

/-- Witness for C6: the invariant holds in the demo store and is preserved
by a concrete retirement. -/
theorem engine_preserves_retired_not_for_sale_witness :
    (demoStore.credits.map HydrogenCredit.id).Nodup ∧
    demoStore.retiredNotForSale ∧
    (applyOp demoStore (EngineOp.retire 3 1 1)).retiredNotForSale :=
  ⟨by decide,
   by
     show ∀ c ∈ demoStore.credits, c.is_retired = true → c.is_for_sale = false
     decide,
   engine_preserves_retired_not_for_sale demoStore (EngineOp.retire 3 1 1)
     (by decide)
     (by
       show ∀ c ∈ demoStore.credits, c.is_retired = true → c.is_for_sale = false
       decide)⟩

/-- C1: when the purchase preconditions hold (the credit exists, is for
sale, is not retired, its owner differs from the buyer — plus referential
integrity: the buyer's and the owner's user rows exist), `buy_credit`
succeeds and atomically appends one `purchase`/`completed` transaction at
the credit's price and quantity between the buyer and the pre-transfer
owner, moves `owner_id` to the buyer, clears `is_for_sale`, adds the
quantity to the buyer's `total_offsets`, adds the price to both parties'
`trading_volume`, and appends exactly one notification addressed to the
buyer and exactly one addressed to the pre-transfer owner. -/
theorem buy_credit_success_spec (s : Store) (now : Int) (buyerId cid : Nat)
    (c : HydrogenCredit) (b sl : User)
    (hcid : cid ≠ 0)
    (hc : s.findCredit cid = some c)
    (hsale : c.is_for_sale = true)
    (hret : c.is_retired = false)
    (howner : c.owner_id ≠ buyerId)
    (hb : s.findUser buyerId = some b)
    (hsl : s.findUser c.owner_id = some sl) :
    (buy_credit s now buyerId cid).1 =
      BuyResult.success (nextId (s.transactions.map Transaction.id)) ∧
    (buy_credit s now buyerId cid).2.transactions = s.transactions ++
      [{ id := nextId (s.transactions.map Transaction.id), credit_id := cid,
         buyer_id := buyerId, seller_id := c.owner_id, price := c.price,
         quantity := c.quantity, transaction_type := "purchase",
         timestamp := now, status := "completed" }] ∧
    (buy_credit s now buyerId cid).2.findCredit cid =
      some { c with owner_id := buyerId, is_for_sale := false } ∧
    (buy_credit s now buyerId cid).2.findUser buyerId =
      some { b with total_offsets := b.total_offsets + c.quantity,
                    trading_volume := b.trading_volume + c.price } ∧
    (buy_credit s now buyerId cid).2.findUser c.owner_id =
      some { sl with trading_volume := sl.trading_volume + c.price } ∧
    (buy_credit s now buyerId cid).2.notifications = s.notifications ++
      [purchaseBuyerNotification buyerId c.quantity c.project_name,
       purchaseSellerNotification sl.id c.project_name b.username] ∧
    sl.id = c.owner_id := by
  have hslid : sl.id = c.owner_id := findById_id User.id s.users c.owner_id sl hsl
  have hfc : findById HydrogenCredit.id s.credits cid = some c := hc
  have hfb : findById User.id s.users buyerId = some b := hb
  have hfsl : findById User.id s.users c.owner_id = some sl := hsl
  have key : buy_credit s now buyerId cid =
      (BuyResult.success (nextId (s.transactions.map Transaction.id)),
       { s with
           credits := updateById HydrogenCredit.id s.credits cid
             (fun x => { x with owner_id := buyerId, is_for_sale := false })
           users := updateById User.id
             (updateById User.id s.users buyerId
               (fun u => { u with total_offsets := u.total_offsets + c.quantity,
                                  trading_volume := u.trading_volume + c.price }))
             c.owner_id
             (fun u => { u with trading_volume := u.trading_volume + c.price })
           transactions := s.transactions ++
             [{ id := nextId (s.transactions.map Transaction.id), credit_id := cid,
                buyer_id := buyerId, seller_id := c.owner_id, price := c.price,
                quantity := c.quantity, transaction_type := "purchase",
                timestamp := now, status := "completed" }]
           notifications := s.notifications ++
             [purchaseBuyerNotification buyerId c.quantity c.project_name,
              purchaseSellerNotification sl.id c.project_name b.username] }) := by
    simp [buy_credit, process_buy_transaction, hc, hb, hsl, hsale, hret, hcid, howner]
  refine ⟨?_, ?_, ?_, ?_, ?_, ?_, hslid⟩
  · rw [key]
  · rw [key]
  · rw [key]
    show findById HydrogenCredit.id
      (updateById HydrogenCredit.id s.credits cid
        (fun x => { x with owner_id := buyerId, is_for_sale := false })) cid = _
    rw [findById_updateById_self HydrogenCredit.id s.credits cid
      (fun x => { x with owner_id := buyerId, is_for_sale := false }) (fun _ => rfl), hfc]
    rfl
  · rw [key]
    show findById User.id
      (updateById User.id
        (updateById User.id s.users buyerId
          (fun u => { u with total_offsets := u.total_offsets + c.quantity,
                             trading_volume := u.trading_volume + c.price }))
        c.owner_id
        (fun u => { u with trading_volume := u.trading_volume + c.price })) buyerId = _
    rw [findById_updateById_ne User.id
      (updateById User.id s.users buyerId
        (fun u => { u with total_offsets := u.total_offsets + c.quantity,
                           trading_volume := u.trading_volume + c.price }))
      c.owner_id buyerId
      (fun u => { u with trading_volume := u.trading_volume + c.price })
      (fun _ => rfl) (Ne.symm howner)]
    rw [findById_updateById_self User.id s.users buyerId
      (fun u => { u with total_offsets := u.total_offsets + c.quantity,
                         trading_volume := u.trading_volume + c.price })
      (fun _ => rfl), hfb]
    rfl
  · rw [key]
    show findById User.id
      (updateById User.id
        (updateById User.id s.users buyerId
          (fun u => { u with total_offsets := u.total_offsets + c.quantity,
                             trading_volume := u.trading_volume + c.price }))
        c.owner_id
        (fun u => { u with trading_volume := u.trading_volume + c.price })) c.owner_id = _
    rw [findById_updateById_self User.id
      (updateById User.id s.users buyerId
        (fun u => { u with total_offsets := u.total_offsets + c.quantity,
                           trading_volume := u.trading_volume + c.price }))
      c.owner_id
      (fun u => { u with trading_volume := u.trading_volume + c.price })
      (fun _ => rfl)]
    rw [findById_updateById_ne User.id s.users buyerId c.owner_id
      (fun u => { u with total_offsets := u.total_offsets + c.quantity,
                         trading_volume := u.trading_volume + c.price })
      (fun _ => rfl) howner, hfsl]
    rfl
  · rw [key]

/-- Witness for C1: user 2 buys credit 1 of the demo store at time 7. -/
theorem buy_credit_success_spec_witness :
    (1 : Nat) ≠ 0 ∧
    demoStore.findCredit 1 = some demoCredit ∧
    demoCredit.is_for_sale = true ∧
    demoCredit.is_retired = false ∧
    demoCredit.owner_id ≠ 2 ∧
    demoStore.findUser 2 = some bobU ∧
    demoStore.findUser demoCredit.owner_id = some aliceU ∧
    (buy_credit demoStore 7 2 1).1 =
      BuyResult.success (nextId (demoStore.transactions.map Transaction.id)) :=
  ⟨by decide, rfl, rfl, rfl, by decide, rfl, rfl,
   (buy_credit_success_spec demoStore 7 2 1 demoCredit bobU aliceU
     (by decide) rfl rfl rfl (by decide) rfl rfl).1⟩

/-- C2: whenever any purchase precondition fails — the credit does not
exist, or is not for sale, or is retired, or is already owned by the
buyer — `buy_credit` returns one of its typed failures (the spec's
`InvalidTransferState` class), never success, and performs no mutation:
the store is returned unchanged, so no credit field changes, no
transaction and no notification is created, and no user total changes. -/
theorem buy_credit_failure_no_mutation (s : Store) (now : Int) (buyerId cid : Nat)
    (hpre : s.findCredit cid = none ∨
      ∃ c, s.findCredit cid = some c ∧
        (c.is_for_sale = false ∨ c.is_retired = true ∨ c.owner_id = buyerId)) :
    (buy_credit s now buyerId cid).1.isSuccess = false ∧
    (buy_credit s now buyerId cid).2 = s := by
  unfold buy_credit
  by_cases h0 : cid = 0
  · simp [h0, BuyResult.isSuccess]
  rcases hpre with hnone | ⟨c, hc, hbad⟩
  · simp [h0, hnone, BuyResult.isSuccess]
  · simp only [hc, h0, if_false, ite_false, if_neg, not_false_eq_true]
    by_cases hown : c.owner_id = buyerId
    · simp [hown, BuyResult.isSuccess]
    · have hcond : c.is_for_sale = false ∨ c.is_retired = true := by
        rcases hbad with h | h | h
        · exact Or.inl h
        · exact Or.inr h
        · exact absurd h hown
      simp [hown, hcond, BuyResult.isSuccess]

/-- Witness for C2: buying the not-for-sale credit of `notForSaleStore`
fails and leaves the store untouched. -/
theorem buy_credit_failure_no_mutation_witness :
    (notForSaleStore.findCredit 1 = none ∨
      ∃ c, notForSaleStore.findCredit 1 = some c ∧
        (c.is_for_sale = false ∨ c.is_retired = true ∨ c.owner_id = 2)) ∧
    (buy_credit notForSaleStore 0 2 1).1.isSuccess = false ∧
    (buy_credit notForSaleStore 0 2 1).2 = notForSaleStore :=
  ⟨Or.inr ⟨{ demoCredit with is_for_sale := false }, rfl, Or.inl rfl⟩,
   buy_credit_failure_no_mutation notForSaleStore 0 2 1
     (Or.inr ⟨{ demoCredit with is_for_sale := false }, rfl, Or.inl rfl⟩)⟩

/-- C10: a successful purchase mutates, among the credit's fields, only
`owner_id` and `is_for_sale`; `token_id`, `project_name`, `quantity`,
`price`, `min_bid_price`, `vintage_year`, the certification fields,
`is_retired`, `is_partnership`, and all date fields are unchanged; and the
seller's `total_offsets` is unchanged (only the buyer's `total_offsets`
and both parties' `trading_volume` change). -/
theorem buy_credit_frame (s : Store) (now : Int) (buyerId cid : Nat)
    (c : HydrogenCredit) (b sl : User)
    (hcid : cid ≠ 0)
    (hc : s.findCredit cid = some c)
    (hsale : c.is_for_sale = true)
    (hret : c.is_retired = false)
    (howner : c.owner_id ≠ buyerId)
    (hb : s.findUser buyerId = some b)
    (hsl : s.findUser c.owner_id = some sl) :
    ((buy_credit s now buyerId cid).2.findCredit cid).map HydrogenCredit.token_id =
      some c.token_id ∧
    ((buy_credit s now buyerId cid).2.findCredit cid).map HydrogenCredit.project_name =
      some c.project_name ∧
    ((buy_credit s now buyerId cid).2.findCredit cid).map HydrogenCredit.quantity =
      some c.quantity ∧
    ((buy_credit s now buyerId cid).2.findCredit cid).map HydrogenCredit.price =
      some c.price ∧
    ((buy_credit s now buyerId cid).2.findCredit cid).map HydrogenCredit.min_bid_price =
      some c.min_bid_price ∧
    ((buy_credit s now buyerId cid).2.findCredit cid).map HydrogenCredit.vintage_year =
      some c.vintage_year ∧
    ((buy_credit s now buyerId cid).2.findCredit cid).map HydrogenCredit.certification =
      some c.certification ∧
    ((buy_credit s now buyerId cid).2.findCredit cid).map HydrogenCredit.certification_level =
      some c.certification_level ∧
    ((buy_credit s now buyerId cid).2.findCredit cid).map HydrogenCredit.project_type =
      some c.project_type ∧
    ((buy_credit s now buyerId cid).2.findCredit cid).map HydrogenCredit.quality_rating =
      some c.quality_rating ∧
    ((buy_credit s now buyerId cid).2.findCredit cid).map HydrogenCredit.is_retired =
      some c.is_retired ∧
    ((buy_credit s now buyerId cid).2.findCredit cid).map HydrogenCredit.is_partnership =
      some c.is_partnership ∧
    ((buy_credit s now buyerId cid).2.findCredit cid).map HydrogenCredit.issue_date =
      some c.issue_date ∧
    ((buy_credit s now buyerId cid).2.findCredit cid).map HydrogenCredit.retirement_date =
      some c.retirement_date ∧
    ((buy_credit s now buyerId cid).2.findCredit cid).map HydrogenCredit.expiry_date =
      some c.expiry_date ∧
    ((buy_credit s now buyerId cid).2.findCredit cid).map HydrogenCredit.owner_id =
      some buyerId ∧
    ((buy_credit s now buyerId cid).2.findCredit cid).map HydrogenCredit.is_for_sale =
      some false ∧
    ((buy_credit s now buyerId cid).2.findUser c.owner_id).map User.total_offsets =
      some sl.total_offsets ∧
    ((buy_credit s now buyerId cid).2.findUser c.owner_id).map User.trading_volume =
      some (sl.trading_volume + c.price) ∧
    ((buy_credit s now buyerId cid).2.findUser buyerId).map User.total_offsets =
      some (b.total_offsets + c.quantity) ∧
    ((buy_credit s now buyerId cid).2.findUser buyerId).map User.trading_volume =
      some (b.trading_volume + c.price) := by
  have hfc : findById HydrogenCredit.id s.credits cid = some c := hc
  have hfb : findById User.id s.users buyerId = some b := hb
  have hfsl : findById User.id s.users c.owner_id = some sl := hsl
  have key : buy_credit s now buyerId cid =
      (BuyResult.success (nextId (s.transactions.map Transaction.id)),
       { s with
           credits := updateById HydrogenCredit.id s.credits cid
             (fun x => { x with owner_id := buyerId, is_for_sale := false })
           users := updateById User.id
             (updateById User.id s.users buyerId
               (fun u => { u with total_offsets := u.total_offsets + c.quantity,
                                  trading_volume := u.trading_volume + c.price }))
             c.owner_id
             (fun u => { u with trading_volume := u.trading_volume + c.price })
           transactions := s.transactions ++
             [{ id := nextId (s.transactions.map Transaction.id), credit_id := cid,
                buyer_id := buyerId, seller_id := c.owner_id, price := c.price,
                quantity := c.quantity, transaction_type := "purchase",
                timestamp := now, status := "completed" }]
           notifications := s.notifications ++
             [purchaseBuyerNotification buyerId c.quantity c.project_name,
              purchaseSellerNotification sl.id c.project_name b.username] }) := by
    simp [buy_credit, process_buy_transaction, hc, hb, hsl, hsale, hret, hcid, howner]
  have hcred : (buy_credit s now buyerId cid).2.findCredit cid =
      some { c with owner_id := buyerId, is_for_sale := false } := by
    rw [key]
    show findById HydrogenCredit.id
      (updateById HydrogenCredit.id s.credits cid
        (fun x => { x with owner_id := buyerId, is_for_sale := false })) cid = _
    rw [findById_updateById_self HydrogenCredit.id s.credits cid
      (fun x => { x with owner_id := buyerId, is_for_sale := false }) (fun _ => rfl), hfc]
    rfl
  have hseller : (buy_credit s now buyerId cid).2.findUser c.owner_id =
      some { sl with trading_volume := sl.trading_volume + c.price } := by
    rw [key]
    show findById User.id
      (updateById User.id
        (updateById User.id s.users buyerId
          (fun u => { u with total_offsets := u.total_offsets + c.quantity,
                             trading_volume := u.trading_volume + c.price }))
        c.owner_id
        (fun u => { u with trading_volume := u.trading_volume + c.price })) c.owner_id = _
    rw [findById_updateById_self User.id
      (updateById User.id s.users buyerId
        (fun u => { u with total_offsets := u.total_offsets + c.quantity,
                           trading_volume := u.trading_volume + c.price }))
      c.owner_id
      (fun u => { u with trading_volume := u.trading_volume + c.price })
      (fun _ => rfl)]
    rw [findById_updateById_ne User.id s.users buyerId c.owner_id
      (fun u => { u with total_offsets := u.total_offsets + c.quantity,
                         trading_volume := u.trading_volume + c.price })
      (fun _ => rfl) howner, hfsl]
    rfl
  have hbuyer : (buy_credit s now buyerId cid).2.findUser buyerId =
      some { b with total_offsets := b.total_offsets + c.quantity,
                    trading_volume := b.trading_volume + c.price } := by
    rw [key]
    show findById User.id
      (updateById User.id
        (updateById User.id s.users buyerId
          (fun u => { u with total_offsets := u.total_offsets + c.quantity,
                             trading_volume := u.trading_volume + c.price }))
        c.owner_id
        (fun u => { u with trading_volume := u.trading_volume + c.price })) buyerId = _
    rw [findById_updateById_ne User.id
      (updateById User.id s.users buyerId
        (fun u => { u with total_offsets := u.total_offsets + c.quantity,
                           trading_volume := u.trading_volume + c.price }))
      c.owner_id buyerId
      (fun u => { u with trading_volume := u.trading_volume + c.price })
      (fun _ => rfl) (Ne.symm howner)]
    rw [findById_updateById_self User.id s.users buyerId
      (fun u => { u with total_offsets := u.total_offsets + c.quantity,
                         trading_volume := u.trading_volume + c.price })
      (fun _ => rfl), hfb]
    rfl
  rw [hcred, hseller, hbuyer]
  repeat' constructor

/-- Witness for C10: in the concrete purchase of credit 1 by user 2, the
credit's frame fields are untouched. -/
theorem buy_credit_frame_witness :
    (1 : Nat) ≠ 0 ∧
    demoStore.findCredit 1 = some demoCredit ∧
    demoCredit.is_for_sale = true ∧
    demoCredit.is_retired = false ∧
    demoCredit.owner_id ≠ 2 ∧
    demoStore.findUser 2 = some bobU ∧
    demoStore.findUser demoCredit.owner_id = some aliceU ∧
    ((buy_credit demoStore 7 2 1).2.findCredit 1).map HydrogenCredit.token_id =
      some demoCredit.token_id :=
  ⟨by decide, rfl, rfl, rfl, by decide, rfl, rfl,
   (buy_credit_frame demoStore 7 2 1 demoCredit bobU aliceU
     (by decide) rfl rfl rfl (by decide) rfl rfl).1⟩

/-- C7: with the credit present in the store, `sell_credit` succeeds when
the caller owns it, it is not retired, and the price is positive, setting
`is_for_sale = true`, `price`, and `min_bid_price = price * 0.9` (hence
`min_bid_price ≤ price`); a non-positive price fails in the route's
price-validation branches (`InvalidPrice` class) and a wrong owner or a
retired credit fails with the not-available error (`NotOwner` class) —
each failure leaving the store unchanged. -/
theorem sell_credit_spec (s : Store) (u cid : Nat) (p : ℚ) (c : HydrogenCredit)
    (hcid : cid ≠ 0) (hc : s.findCredit cid = some c) :
    (c.owner_id = u → c.is_retired = false → 0 < p →
      (sell_credit s u cid p).1 = SellResult.success ∧
      (sell_credit s u cid p).2.findCredit cid =
        some { c with is_for_sale := true, price := p,
                      min_bid_price := some (p * 0.9) } ∧
      (sell_credit s u cid p).2.notifications = s.notifications ++
        [listingNotification u c.project_name p] ∧
      p * 0.9 ≤ p) ∧
    (p ≤ 0 →
      ((sell_credit s u cid p).1 = SellResult.fieldsRequired ∨
       (sell_credit s u cid p).1 = SellResult.invalidPrice) ∧
      (sell_credit s u cid p).2 = s) ∧
    (0 < p → (c.owner_id ≠ u ∨ c.is_retired = true) →
      (sell_credit s u cid p).1 = SellResult.notAvailable ∧
      (sell_credit s u cid p).2 = s) := by
  have hfc : findById HydrogenCredit.id s.credits cid = some c := hc
  refine ⟨?_, ?_, ?_⟩
  · intro hown hret hp
    have hp0 : p ≠ 0 := ne_of_gt hp
    have hnp : ¬ p ≤ 0 := not_le.mpr hp
    have key : sell_credit s u cid p =
        (SellResult.success,
         { s with
             credits := updateById HydrogenCredit.id s.credits cid
               (fun x => { x with is_for_sale := true, price := p,
                                  min_bid_price := some (p * 0.9) })
             notifications := s.notifications ++
               [listingNotification u c.project_name p] }) := by
      simp [sell_credit, process_sell_listing, hcid, hp0, hnp, hc, hown, hret]
    refine ⟨by rw [key], ?_, by rw [key], ?_⟩
    · rw [key]
      show findById HydrogenCredit.id
        (updateById HydrogenCredit.id s.credits cid
          (fun x => { x with is_for_sale := true, price := p,
                             min_bid_price := some (p * 0.9) })) cid = _
      rw [findById_updateById_self HydrogenCredit.id s.credits cid
        (fun x => { x with is_for_sale := true, price := p,
                           min_bid_price := some (p * 0.9) }) (fun _ => rfl), hfc]
      rfl
    · nlinarith [hp.le]
  · intro hp
    by_cases hp0 : p = 0
    · exact ⟨Or.inl (by simp [sell_credit, hp0]), by simp [sell_credit, hp0]⟩
    · exact ⟨Or.inr (by simp [sell_credit, hcid, hp0, hp]),
        by simp [sell_credit, hcid, hp0, hp]⟩
  · intro hp hbad
    have hp0 : p ≠ 0 := ne_of_gt hp
    have hnp : ¬ p ≤ 0 := not_le.mpr hp
    have key : sell_credit s u cid p = (SellResult.notAvailable, s) := by
      simp only [sell_credit, process_sell_listing, hc]
      rw [if_neg (by simp [hcid, hp0]), if_neg hnp, if_pos hbad]
    exact ⟨by rw [key], by rw [key]⟩

/-- Witness for C7: user 1 lists their demo credit at price 10. -/
theorem sell_credit_spec_witness :
    (1 : Nat) ≠ 0 ∧
    demoStore.findCredit 1 = some demoCredit ∧
    (demoCredit.owner_id = 1 → demoCredit.is_retired = false → 0 < (10 : ℚ) →
      (sell_credit demoStore 1 1 10).1 = SellResult.success ∧
      (sell_credit demoStore 1 1 10).2.findCredit 1 =
        some { demoCredit with is_for_sale := true, price := 10,
                               min_bid_price := some ((10 : ℚ) * 0.9) } ∧
      (sell_credit demoStore 1 1 10).2.notifications = demoStore.notifications ++
        [listingNotification 1 demoCredit.project_name 10] ∧
      (10 : ℚ) * 0.9 ≤ 10) :=
  ⟨by decide, rfl,
   (sell_credit_spec demoStore 1 1 10 demoCredit (by decide) rfl).1⟩

/-- Counterexample to C8: the demo credit of `retiredStore` is already
retired (since time 5), yet `retire_credit` at time 9 by its owner reports
success — not an already-retired error — and overwrites the stored
retirement timestamp with the new time. -/
theorem retire_credit_already_retired_counterexample :
    (retiredStore.findCredit 1).map HydrogenCredit.is_retired = some true ∧
    (retiredStore.findCredit 1).map HydrogenCredit.retirement_date = some (some 5) ∧
    (retire_credit retiredStore 9 1 1).1 = RetireResult.success ∧
    ((retire_credit retiredStore 9 1 1).2.findCredit 1).map
      HydrogenCredit.retirement_date = some (some 9) :=
  ⟨rfl, rfl, rfl, rfl⟩

/-- C8 amended: re-retiring an already-retired credit owned by the caller
silently succeeds (there is no already-retired check), re-setting
`is_retired`, clearing `is_for_sale`, and overwriting `retirement_date`
with the current time. -/
theorem retire_credit_re_retire_spec (s : Store) (now : Int) (u cid : Nat)
    (c : HydrogenCredit) (hcid : cid ≠ 0) (hc : s.findCredit cid = some c)
    (hown : c.owner_id = u) (hret : c.is_retired = true) :
    (retire_credit s now u cid).1 = RetireResult.success ∧
    (retire_credit s now u cid).2.findCredit cid =
      some { c with is_retired := true, is_for_sale := false,
                    retirement_date := some now } := by
  have hfc : findById HydrogenCredit.id s.credits cid = some c := hc
  have key : retire_credit s now u cid =
      (RetireResult.success,
       { s with
           credits := updateById HydrogenCredit.id s.credits cid
             (fun x => { x with is_retired := true, is_for_sale := false,
                                retirement_date := some now }) }) := by
    simp [retire_credit, hcid, hc, hown]
  refine ⟨by rw [key], ?_⟩
  rw [key]
  show findById HydrogenCredit.id
    (updateById HydrogenCredit.id s.credits cid
      (fun x => { x with is_retired := true, is_for_sale := false,
                         retirement_date := some now })) cid = _
  rw [findById_updateById_self HydrogenCredit.id s.credits cid
    (fun x => { x with is_retired := true, is_for_sale := false,
                       retirement_date := some now }) (fun _ => rfl), hfc]
  rfl

/-- Witness for the amended C8: re-retiring the retired demo credit. -/
theorem retire_credit_re_retire_spec_witness :
    (1 : Nat) ≠ 0 ∧
    retiredStore.findCredit 1 = some retiredCredit ∧
    retiredCredit.owner_id = 1 ∧
    retiredCredit.is_retired = true ∧
    (retire_credit retiredStore 9 1 1).1 = RetireResult.success :=
  ⟨by decide, rfl, rfl, rfl,
   (retire_credit_re_retire_spec retiredStore 9 1 1 retiredCredit
     (by decide) rfl rfl rfl).1⟩

/-- Counterexample to C9: placing a bid on the demo credit at time 0 with a
requested expiry of 1 hour succeeds, but the stored bid expires at
`0 + 7 * 24 = 168` hours — the fixed 7-day default, not the requested
expiry. -/
theorem place_bid_expiry_counterexample :
    (place_bid demoStore 0 2 1 5 10 1 "").1 = PlaceBidResult.success ∧
    (place_bid demoStore 0 2 1 5 10 1 "").2.bids.map TradingBid.expiry_date =
      [(168 : Int)] ∧
    (168 : Int) ≠ 0 + 1 :=
  ⟨rfl, rfl, by decide⟩

/-- C9 amended: every successful `place_bid` stores a bid with status
`active` and `expiry_date = now + 7 * 24` (the fixed
`timedelta(days=7)` default) — independent of the caller-supplied
`expiry_hours`, which the route never reads. -/
theorem place_bid_creates_active_bid_fixed_expiry (s : Store) (now : Int)
    (u cid : Nat) (p q : ℚ) (eh : Int) (notes : String) (c : HydrogenCredit)
    (hcid : cid ≠ 0) (hp : 0 < p) (hq : 0 < q)
    (hc : s.findCredit cid = some c) (hown : c.owner_id ≠ u) :
    (place_bid s now u cid p q eh notes).1 = PlaceBidResult.success ∧
    (place_bid s now u cid p q eh notes).2.bids = s.bids ++
      [{ id := nextId (s.bids.map TradingBid.id), credit_id := cid, user_id := u,
         bid_price := p, quantity_desired := q, bid_type := "buy",
         status := "active", expiry_date := now + 7 * 24, created_at := now,
         accepted_at := none, notes := notes }] := by
  constructor <;>
    simp [place_bid, hcid, ne_of_gt hp, ne_of_gt hq, not_le.mpr hp,
      not_le.mpr hq, hc, hown]

/-- Witness for the amended C9: a concrete successful bid placement whose
requested 24-hour expiry is ignored. -/
theorem place_bid_creates_active_bid_fixed_expiry_witness :
    (1 : Nat) ≠ 0 ∧ (0 : ℚ) < 5 ∧ (0 : ℚ) < 10 ∧
    demoStore.findCredit 1 = some demoCredit ∧
    demoCredit.owner_id ≠ 2 ∧
    (place_bid demoStore 0 2 1 5 10 24 "").1 = PlaceBidResult.success :=
  ⟨by decide, by decide, by decide, rfl, by decide,
   (place_bid_creates_active_bid_fixed_expiry demoStore 0 2 1 5 10 24 ""
     demoCredit (by decide) (by decide) (by decide) rfl (by decide)).1⟩

/-- Counterexample to C5: the demo credit is for sale with
`min_bid_price = 4.5`, yet a bid of 2 — well below the minimum — is
accepted by `place_bid` and a bid record at price 2 is created. -/
theorem place_bid_below_min_bid_counterexample :
    (demoStore.findCredit 1).map HydrogenCredit.min_bid_price =
      some (some 4.5) ∧
    (demoStore.findCredit 1).map HydrogenCredit.is_for_sale = some true ∧
    (2 : ℚ) < 4.5 ∧
    (place_bid demoStore 0 2 1 2 10 24 "").1 = PlaceBidResult.success ∧
    (place_bid demoStore 0 2 1 2 10 24 "").2.bids.map TradingBid.bid_price =
      [(2 : ℚ)] :=
  ⟨rfl, rfl, by norm_num, rfl, rfl⟩

/-- C5 amended: `place_bid` succeeds exactly when the request fields are
truthy, price and quantity are positive, the credit exists, and the bidder
is not its owner; the credit's `min_bid_price` and `is_for_sale` are never
consulted, so in particular a bid below the minimum bid price succeeds and
is recorded. -/
theorem place_bid_success_iff (s : Store) (now : Int) (u cid : Nat) (p q : ℚ)
    (eh : Int) (notes : String) :
    (place_bid s now u cid p q eh notes).1 = PlaceBidResult.success ↔
      (cid ≠ 0 ∧ 0 < p ∧ 0 < q ∧
        ∃ c, s.findCredit cid = some c ∧ c.owner_id ≠ u) := by
  unfold place_bid
  by_cases h1 : cid = 0 ∨ p = 0 ∨ q = 0
  · rw [if_pos h1]
    constructor
    · intro h
      simp at h
    · rintro ⟨hcid, hp, hq, -⟩
      rcases h1 with h | h | h
      · exact absurd h hcid
      · exact absurd h (ne_of_gt hp)
      · exact absurd h (ne_of_gt hq)
  · by_cases h2 : p ≤ 0 ∨ q ≤ 0
    · rw [if_neg h1, if_pos h2]
      constructor
      · intro h
        simp at h
      · rintro ⟨hcid, hp, hq, -⟩
        rcases h2 with h | h
        · exact absurd h (not_le.mpr hp)
        · exact absurd h (not_le.mpr hq)
    · push_neg at h1 h2
      rw [if_neg (by simp [h1.1, h1.2.1, h1.2.2]), if_neg (by simp [h2.1, h2.2])]
      cases hc : s.findCredit cid with
      | none => simp [hc]
      | some c =>
        by_cases hoc : c.owner_id = u
        · simp [hc, hoc]
        · simp [hc, hoc, h1.1, h2.1, h2.2]

/-- C3 fails on the code: in `acceptedBidStore` bid 1 is already
`accepted` (accepted at time 5) and, at time 101, also past its expiry,
yet `accept_bid` — which never consults `status` or `is_expired` —
succeeds again for the credit's current owner: it books a second
transaction from the same bid, re-stamps `accepted_at`, and adds the
bid quantity to the buyer's `total_offsets` a second time. -/
theorem accept_bid_ignores_bid_status :
    (acceptedBidStore.findBid 1).map TradingBid.status = some "accepted" ∧
    (acceptedBidStore.findBid 1).map (fun b => b.is_expired 101) = some true ∧
    (accept_bid acceptedBidStore 101 2 1).1 = AcceptBidResult.success ∧
    (accept_bid acceptedBidStore 101 2 1).2.transactions.length =
      acceptedBidStore.transactions.length + 1 ∧
    ((accept_bid acceptedBidStore 101 2 1).2.findBid 1).map TradingBid.accepted_at =
      some (some 101) ∧
    ((accept_bid acceptedBidStore 101 2 1).2.findUser 2).map User.total_offsets =
      some ((100 : ℚ) + 100) :=
  ⟨rfl, rfl, rfl, rfl, rfl, rfl⟩

/-- Counterexample to C4: accepting the active demo bid succeeds, but
neither party's `trading_volume` moves — the seller's stays at its old
value instead of increasing by the bid price, contradicting the claimed
`executePurchase`-identical bookkeeping. -/
theorem accept_bid_trading_volume_counterexample :
    (accept_bid activeBidStore 10 1 1).1 = AcceptBidResult.success ∧
    ((accept_bid activeBidStore 10 1 1).2.findUser 1).map User.trading_volume =
      some aliceU.trading_volume ∧
    ((accept_bid activeBidStore 10 1 1).2.findUser 2).map User.trading_volume =
      some bobU.trading_volume ∧
    aliceU.trading_volume ≠ aliceU.trading_volume + demoBid.bid_price :=
  ⟨rfl, rfl, rfl, by norm_num [aliceU, demoBid]⟩

/-- C4 amended: when the bid exists and is active (unexpired), the caller
owns the referenced credit, and the bidder's row exists, `accept_bid`
creates one `bid`-type `completed` transaction at the bid's price and
quantity, transfers the credit to the bidder and clears `for_sale`, marks
the bid `accepted` with an acceptance timestamp, adds the bid quantity to
the bidder's `total_offsets`, leaves both parties' `trading_volume`
unchanged (the seller's row is entirely untouched), and notifies both
parties. -/
theorem accept_bid_success_spec (s : Store) (now : Int) (u bid_id : Nat)
    (bd : TradingBid) (c : HydrogenCredit) (buyer : User)
    (hbid0 : bid_id ≠ 0)
    (hb : s.findBid bid_id = some bd)
    (hstat : bd.status = "active")
    (hexp : bd.is_expired now = false)
    (hc : s.findCredit bd.credit_id = some c)
    (hown : c.owner_id = u)
    (hbuyer : s.findUser bd.user_id = some buyer)
    (hne : bd.user_id ≠ u) :
    (accept_bid s now u bid_id).1 = AcceptBidResult.success ∧
    (accept_bid s now u bid_id).2.transactions = s.transactions ++
      [{ id := nextId (s.transactions.map Transaction.id),
         credit_id := bd.credit_id, buyer_id := bd.user_id, seller_id := u,
         price := bd.bid_price, quantity := bd.quantity_desired,
         transaction_type := "bid", timestamp := now, status := "completed" }] ∧
    (accept_bid s now u bid_id).2.findCredit bd.credit_id =
      some { c with owner_id := bd.user_id, is_for_sale := false } ∧
    (accept_bid s now u bid_id).2.findBid bid_id =
      some { bd with status := "accepted", accepted_at := some now } ∧
    (accept_bid s now u bid_id).2.findUser bd.user_id =
      some { buyer with total_offsets := buyer.total_offsets + bd.quantity_desired } ∧
    (accept_bid s now u bid_id).2.findUser u = s.findUser u ∧
    (accept_bid s now u bid_id).2.notifications = s.notifications ++
      [bidAcceptedNotification bd.user_id c.project_name,
       creditSoldNotification u c.project_name bd.bid_price] := by
  have hfb : findById TradingBid.id s.bids bid_id = some bd := hb
  have hfc : findById HydrogenCredit.id s.credits bd.credit_id = some c := hc
  have hfu : findById User.id s.users bd.user_id = some buyer := hbuyer
  have key : accept_bid s now u bid_id =
      (AcceptBidResult.success,
       { s with
           credits := updateById HydrogenCredit.id s.credits bd.credit_id
             (fun x => { x with owner_id := bd.user_id, is_for_sale := false })
           bids := updateById TradingBid.id s.bids bid_id
             (fun x => { x with status := "accepted", accepted_at := some now })
           users := updateById User.id s.users bd.user_id
             (fun x => { x with total_offsets := x.total_offsets + bd.quantity_desired })
           transactions := s.transactions ++
             [{ id := nextId (s.transactions.map Transaction.id),
                credit_id := bd.credit_id, buyer_id := bd.user_id, seller_id := u,
                price := bd.bid_price, quantity := bd.quantity_desired,
                transaction_type := "bid", timestamp := now, status := "completed" }]
           notifications := s.notifications ++
             [bidAcceptedNotification bd.user_id c.project_name,
              creditSoldNotification u c.project_name bd.bid_price] }) := by
    simp [accept_bid, hbid0, hb, hc, hown, hbuyer]
  refine ⟨by rw [key], by rw [key], ?_, ?_, ?_, ?_, by rw [key]⟩
  · rw [key]
    show findById HydrogenCredit.id
      (updateById HydrogenCredit.id s.credits bd.credit_id
        (fun x => { x with owner_id := bd.user_id, is_for_sale := false }))
      bd.credit_id = _
    rw [findById_updateById_self HydrogenCredit.id s.credits bd.credit_id
      (fun x => { x with owner_id := bd.user_id, is_for_sale := false })
      (fun _ => rfl), hfc]
    rfl
  · rw [key]
    show findById TradingBid.id
      (updateById TradingBid.id s.bids bid_id
        (fun x => { x with status := "accepted", accepted_at := some now }))
      bid_id = _
    rw [findById_updateById_self TradingBid.id s.bids bid_id
      (fun x => { x with status := "accepted", accepted_at := some now })
      (fun _ => rfl), hfb]
    rfl
  · rw [key]
    show findById User.id
      (updateById User.id s.users bd.user_id
        (fun x => { x with total_offsets := x.total_offsets + bd.quantity_desired }))
      bd.user_id = _
    rw [findById_updateById_self User.id s.users bd.user_id
      (fun x => { x with total_offsets := x.total_offsets + bd.quantity_desired })
      (fun _ => rfl), hfu]
    rfl
  · rw [key]
    show findById User.id
      (updateById User.id s.users bd.user_id
        (fun x => { x with total_offsets := x.total_offsets + bd.quantity_desired }))
      u = _
    rw [findById_updateById_ne User.id s.users bd.user_id u
      (fun x => { x with total_offsets := x.total_offsets + bd.quantity_desired })
      (fun _ => rfl) (Ne.symm hne)]
    rfl

/-- Witness for the amended C4: owner 1 accepts the active demo bid of
user 2 at time 10. -/
theorem accept_bid_success_spec_witness :
    (1 : Nat) ≠ 0 ∧
    activeBidStore.findBid 1 = some demoBid ∧
    demoBid.status = "active" ∧
    demoBid.is_expired 10 = false ∧
    activeBidStore.findCredit demoBid.credit_id = some demoCredit ∧
    demoCredit.owner_id = 1 ∧
    activeBidStore.findUser demoBid.user_id = some bobU ∧
    demoBid.user_id ≠ 1 ∧
    (accept_bid activeBidStore 10 1 1).1 = AcceptBidResult.success :=
  ⟨by decide, rfl, rfl, rfl, rfl, rfl, rfl, by decide,
   (accept_bid_success_spec activeBidStore 10 1 1 demoBid demoCredit bobU
     (by decide) rfl rfl rfl rfl rfl rfl (by decide)).1⟩
